import Mathlib

/-!
Shallow embedding of the waku multi-device session registry
(src/services/whatsapp.go), the QR poll and status handlers
(src/handlers/session.go, second definition set, the one the spec's
line references point into) and the webhook dispatcher
(src/services/webhook.go).

Modelling conventions:
* Go `time.Time` zero values are modelled as `none : Option Nat`;
  `time.Now()` is an explicit `now : Nat` parameter.
* The whatsmeow collaborator is opaque: its observable per-client state
  (`Client.Store.ID`, `Client.IsLoggedIn()`) appears as the fields
  `storeId` / `isLoggedIn` of `DeviceClient`; collaborator calls that do
  not touch the fields of `DeviceClient` (Connect, Disconnect, ...) are
  not modelled.  The environment may change the collaborator state
  between operations (`collaboratorUpdate`).
* The buffered channel `QRChan` (capacity 5) is modelled as a list,
  head = oldest element.
* Handlers are modelled on a quiescent state: no concurrent event is
  delivered while a handler runs, so a select over the channel either
  takes the present head or times out.
* Fallible external effects (MkdirAll, sqlstore, RemoveAll, HTTP POST)
  are inputs: a boolean/result parameter tells which way they went.
-/

namespace Waku

/-- Tagged errors, one constructor per distinct `fmt.Errorf` branch of the
registry operations in src/services/whatsapp.go. -/
inductive RegErr where
  | alreadyExists (deviceId : String)
  | notFound (deviceId : String)
  | mkdirFailed
  | dbFailed
  | deviceStoreFailed
  | removeDirFailed
  deriving DecidableEq, Repr

/-- State of one device session: the `DeviceClient` struct of
src/services/whatsapp.go.  `storeId` and `isLoggedIn` are the view of the
collaborator-owned `Client.Store.ID` and `Client.IsLoggedIn()`. -/
structure DeviceClient where
  deviceId : String
  qrChan : List String
  connected : Bool
  phone : String
  connectedAt : Option Nat
  storeId : Option String
  isLoggedIn : Bool
  deriving DecidableEq, Repr

/-- A whatsmeow JID, reduced to the parts this code reads. -/
structure JID where
  user : String
  server : String
  deriving DecidableEq, Repr

/-- The fields of `events.Message.Info` read by the webhook service. -/
structure MessageInfo where
  id : String
  sender : JID
  chat : JID
  isFromMe : Bool
  isGroup : Bool
  pushName : String
  timestamp : Int
  deriving DecidableEq, Repr

/-- The payload variants of a whatsmeow message inspected by
`HandleIncomingMessage`: `conversation` is `GetConversation()` (empty
string when unset); the `Option` fields are `some caption/text` when the
corresponding sub-message is non-nil; `hasAudio` is
`GetAudioMessage() != nil`. -/
structure MessageContent where
  conversation : String
  extendedText : Option String
  imageCaption : Option String
  videoCaption : Option String
  hasAudio : Bool
  documentCaption : Option String
  deriving DecidableEq, Repr

/-- An inbound message event (`events.Message`). -/
structure MessageEvent where
  info : MessageInfo
  message : MessageContent
  deriving DecidableEq, Repr

/-- The tagged union of collaborator callback events handled by
`DeviceClient.eventHandler` (src/services/whatsapp.go lines 260-299). -/
inductive WAEvent where
  | qr (codes : List String)
  | pairSuccess
  | connected
  | disconnected
  | message (m : MessageEvent)
  deriving DecidableEq, Repr

/-- Capacity of the `QRChan` buffered channel (`make(chan string, 5)`). -/
def qrChanCap : Nat := 5

/-- Offering one code to the channel, as in the `events.QR` arm: if the
channel has room the code is appended; otherwise the oldest element is
received (dropped) and the code appended.  The second `default` arm of
the Go select (skip the code) is unreachable without a concurrent
producer. -/
def pushQRCode (q : List String) (code : String) : List String :=
  if q.length < qrChanCap then q ++ [code] else q.drop 1 ++ [code]

/-- Offering a whole batch of codes (`for _, code := range v.Codes`). -/
def pushQRCodes (q : List String) (codes : List String) : List String :=
  codes.foldl pushQRCode q

/-- `DeviceClient.eventHandler` (src/services/whatsapp.go lines 260-299):
the effect of one collaborator callback on the session's own fields.  The
`events.Message` arm only forwards to the webhook service and touches no
session field. -/
def handleEvent (now : Nat) (dc : DeviceClient) (e : WAEvent) : DeviceClient :=
  match e with
  | .qr codes => { dc with qrChan := pushQRCodes dc.qrChan codes }
  | .pairSuccess => dc
  | .connected =>
      { dc with connected := true, connectedAt := some now,
                phone := match dc.storeId with
                         | some u => u
                         | none => dc.phone }
  | .disconnected => { dc with connected := false }
  | .message _ => dc

/-- The environment (the collaborator library itself) updating its own
per-client state; no field owned by this repository changes. -/
def collaboratorUpdate (dc : DeviceClient) (storeId : Option String)
    (isLoggedIn : Bool) : DeviceClient :=
  { dc with storeId := storeId, isLoggedIn := isLoggedIn }

/-- Lookup in the registry's map, `s.clients[deviceID]`. -/
def lookupClient : List (String × DeviceClient) → String → Option DeviceClient
  | [], _ => none
  | (k, v) :: rest, d => if k = d then some v else lookupClient rest d

/-- In-place mutation of an existing entry (the Go code mutates the
session through its pointer; here the table entry is rewritten). -/
def updateClient : List (String × DeviceClient) → String → DeviceClient →
    List (String × DeviceClient)
  | [], _, _ => []
  | (k, v) :: rest, d, dc =>
      if k = d then (d, dc) :: updateClient rest d dc
      else (k, v) :: updateClient rest d dc

/-- Removal of a key, `delete(s.clients, deviceID)`. -/
def eraseClient : List (String × DeviceClient) → String →
    List (String × DeviceClient)
  | [], _ => []
  | (k, v) :: rest, d =>
      if k = d then eraseClient rest d else (k, v) :: eraseClient rest d

/-- The registry: `WhatsAppService.clients` (the `sync.RWMutex` serialises
the operations; each operation below is one critical section). -/
structure WhatsAppService where
  clients : List (String × DeviceClient)
  deriving DecidableEq, Repr

/-- Outcomes of the external effects performed by `CreateSession`:
directory creation, sqlstore open, device fetch, and the `Store.ID` of the
fresh client (nil selects the QR pairing path). -/
structure CreateEnv where
  mkdirOk : Bool
  dbOk : Bool
  deviceStoreOk : Bool
  storeId : Option String
  deriving DecidableEq, Repr

/-- The `DeviceClient` composite literal of `CreateSession`: empty QR
channel, not connected, zero-valued phone and timestamp; a client fresh
from `whatsmeow.NewClient` is not logged in. -/
def newDeviceClient (deviceId : String) (storeId : Option String) : DeviceClient :=
  { deviceId := deviceId, qrChan := [], connected := false, phone := "",
    connectedAt := none, storeId := storeId, isLoggedIn := false }

/-- `WhatsAppService.CreateSession` (src/services/whatsapp.go lines
180-235).  On a duplicate device id the Go code returns the existing
client together with an error; the registry is untouched.  Otherwise the
external effects run in order and, on success, the fresh client is stored
and connection is initiated asynchronously (a collaborator call with no
effect on the stored fields). -/
def createSession (s : WhatsAppService) (deviceId : String) (env : CreateEnv) :
    WhatsAppService × Except RegErr DeviceClient :=
  match lookupClient s.clients deviceId with
  | some _ => (s, .error (.alreadyExists deviceId))
  | none =>
    if env.mkdirOk = false then (s, .error .mkdirFailed)
    else if env.dbOk = false then (s, .error .dbFailed)
    else if env.deviceStoreOk = false then (s, .error .deviceStoreFailed)
    else
      let dc := newDeviceClient deviceId env.storeId
      (⟨(deviceId, dc) :: s.clients⟩, .ok dc)

/-- `WhatsAppService.GetSession` (lines 301-312). -/
def getSession (s : WhatsAppService) (deviceId : String) :
    Except RegErr DeviceClient :=
  match lookupClient s.clients deviceId with
  | some dc => .ok dc
  | none => .error (.notFound deviceId)

/-- `WhatsAppService.Logout` (lines 327-341): disconnect the collaborator
(no stored-field effect) and clear the `Connected` flag; every other
field of the session is untouched. -/
def logoutSession (s : WhatsAppService) (deviceId : String) :
    WhatsAppService × Except RegErr Unit :=
  match lookupClient s.clients deviceId with
  | none => (s, .error (.notFound deviceId))
  | some dc =>
      (⟨updateClient s.clients deviceId { dc with connected := false }⟩, .ok ())

/-- `WhatsAppService.DeleteSession` (lines 343-366): disconnect, remove
the map entry, then remove the on-disk session directory; a failure of
the directory removal is reported after the entry is already gone. -/
def deleteSession (s : WhatsAppService) (deviceId : String)
    (removeDirOk : Bool) : WhatsAppService × Except RegErr Unit :=
  match lookupClient s.clients deviceId with
  | none => (s, .error (.notFound deviceId))
  | some _ =>
      let s1 : WhatsAppService := ⟨eraseClient s.clients deviceId⟩
      if removeDirOk then (s1, .ok ()) else (s1, .error .removeDirFailed)

/-- Responses of the QR poll handler. -/
inductive QRResult where
  | notFoundResp
  | connectedResp (phone : String)
  | qrCodeResp (code : String)
  | inProgressResp
  | emptyResp
  deriving DecidableEq, Repr

/-- `GetQRCode` (src/handlers/session.go lines 221-353), effect on one
session and response, on a quiescent state.  In order: an already
`Connected` session short-circuits; a client reporting `IsLoggedIn()`
with a non-nil `Store.ID` is marked connected (flag, phone, timestamp)
and reported connected; otherwise the channel is polled - a non-empty
code answers the poll, an empty code is consumed with no response
written, and an empty channel runs into the two-stage timeout, after
which a non-nil `Store.ID` is reported connected (without mutation) and a
nil one yields the in-progress error. -/
def getQRCode (now : Nat) (dc : DeviceClient) : DeviceClient × QRResult :=
  if dc.connected then (dc, .connectedResp dc.phone)
  else if dc.isLoggedIn && dc.storeId.isSome then
    ({ dc with connected := true, phone := dc.storeId.getD "",
               connectedAt := some now },
     .connectedResp (dc.storeId.getD ""))
  else
    match dc.qrChan with
    | code :: rest =>
        if code ≠ "" then ({ dc with qrChan := rest }, .qrCodeResp code)
        else ({ dc with qrChan := rest }, .emptyResp)
    | [] =>
        match dc.storeId with
        | none => (dc, .inProgressResp)
        | some u => (dc, .connectedResp u)

/-- The QR poll handler at registry level: `NotFound` for an unknown
device, otherwise `getQRCode` on the live session. -/
def getQRCodeHandler (now : Nat) (s : WhatsAppService) (deviceId : String) :
    WhatsAppService × QRResult :=
  match lookupClient s.clients deviceId with
  | none => (s, .notFoundResp)
  | some dc =>
      ((⟨updateClient s.clients deviceId (getQRCode now dc).1⟩ : WhatsAppService),
       (getQRCode now dc).2)

/-- `GetSessionStatus` (src/handlers/session.go): the status string
computed for a live session; the handler performs no write. -/
def sessionStatus (dc : DeviceClient) : String :=
  if dc.connected then "connected"
  else if dc.storeId = none then "waiting_for_qr_scan"
  else "disconnected"

/-- The `WebhookPayload` struct of src/services/webhook.go restricted to
the fields this code ever sets (`GroupName`, `MediaURL` and
`QuotedMessage` are always null). -/
structure WebhookPayload where
  DeviceID : String
  MessageID : String
  From : String
  FromName : String
  Message : String
  MessageType : String
  Timestamp : Int
  IsGroup : Bool
  GroupJID : Option String
  deriving DecidableEq, Repr

/-- The webhook service configuration (src/services/webhook.go). -/
structure WebhookService where
  enabled : Bool
  webhookURL : String
  retryCount : Int
  deriving DecidableEq, Repr

/-- `extractPhoneNumber` (src/services/webhook.go lines 69-76). -/
def extractPhoneNumber (jid : JID) : String :=
  jid.user

/-- The message-content block of `HandleIncomingMessage` (lines 117-133):
the first populated payload variant, in source order, sets the message
body and type on top of the defaults already in `base`. -/
def applyContent (base : WebhookPayload) (m : MessageContent) : WebhookPayload :=
  if m.conversation ≠ "" then { base with Message := m.conversation }
  else match m.extendedText with
  | some t => { base with Message := t }
  | none => match m.imageCaption with
    | some cap => { base with MessageType := "image", Message := cap }
    | none => match m.videoCaption with
      | some cap => { base with MessageType := "video", Message := cap }
      | none =>
        if m.hasAudio then { base with MessageType := "audio" }
        else match m.documentCaption with
          | some cap => { base with MessageType := "document", Message := cap }
          | none => base

/-- The payload literal of `HandleIncomingMessage` (lines 90-115) before
the content block runs: the actual sender is the reported sender with the
fixed display name for self-sent messages, and the chat identity with the
push name otherwise; body defaults to empty, kind to `text`. -/
def basePayload (deviceID : String) (evt : MessageEvent) : WebhookPayload :=
  { DeviceID := deviceID, MessageID := evt.info.id,
    From := extractPhoneNumber
      (if evt.info.isFromMe then evt.info.sender else evt.info.chat),
    FromName := if evt.info.isFromMe then "Me" else evt.info.pushName,
    Message := "", MessageType := "text",
    Timestamp := evt.info.timestamp, IsGroup := evt.info.isGroup,
    GroupJID := none }

/-- `WebhookService.HandleIncomingMessage` (src/services/webhook.go lines
79-145): the payload it hands to `sendWithRetry`, or `none` when the
service is disabled or has no URL. -/
def handleIncomingMessage (w : WebhookService) (deviceID : String)
    (evt : MessageEvent) : Option WebhookPayload :=
  if w.enabled = false ∨ w.webhookURL = "" then none
  else
    let withContent := applyContent (basePayload deviceID evt) evt.message
    if evt.info.isGroup then
      some { withContent with GroupJID := some (extractPhoneNumber evt.info.chat) }
    else some withContent

/-- Spec-side content selection for the message normalization claim: the
fixed list of payload variants in the order the specification names them,
each with its populated-test, kind and body. -/
def contentVariants (m : MessageContent) : List (Bool × String × String) :=
  [ (m.conversation != "", "text", m.conversation),
    (m.extendedText.isSome, "text", m.extendedText.getD ""),
    (m.imageCaption.isSome, "image", m.imageCaption.getD ""),
    (m.videoCaption.isSome, "video", m.videoCaption.getD ""),
    (m.hasAudio, "audio", ""),
    (m.documentCaption.isSome, "document", m.documentCaption.getD "") ]

/-- Spec-side selection: first populated variant wins, default kind
`text` with empty body.  Returns (kind, body). -/
def specSelectContent (m : MessageContent) : String × String :=
  match (contentVariants m).find? (fun v => v.1) with
  | some (_, kind, body) => (kind, body)
  | none => ("text", "")

/-- Outcome of one HTTP POST attempt: a transport-level error (including
the marshal and request-construction failures) or a status code. -/
inductive SendResult where
  | transportError
  | status (code : Nat)
  deriving DecidableEq, Repr

/-- `WebhookService.send` (src/services/webhook.go lines 175-199) returns
nil exactly when the POST came back with a 2xx status. -/
def sendOk : SendResult → Bool
  | .transportError => false
  | .status code => if code < 200 ∨ 300 ≤ code then false else true

/-- Observable trace of one `sendWithRetry` run: how many attempts were
made, the backoff sleeps (in seconds) between them, and whether a
delivery succeeded. -/
structure RetryTrace where
  attempts : Nat
  backoffs : List Nat
  delivered : Bool
  deriving DecidableEq, Repr

/-- The retry loop of `sendWithRetry` (lines 148-172), recursing on the
number of attempts still allowed; `attempt` is the Go loop index.  A
successful attempt returns; a failed attempt sleeps `1<<attempt` seconds
unless it was the last allowed one. -/
def retryLoop (res : Nat → SendResult) : Nat → Nat → RetryTrace
  | 0, _ => { attempts := 0, backoffs := [], delivered := false }
  | r + 1, attempt =>
      if sendOk (res attempt) then
        { attempts := 1, backoffs := [], delivered := true }
      else if r = 0 then
        { attempts := 1, backoffs := [], delivered := false }
      else
        { attempts := (retryLoop res r (attempt + 1)).attempts + 1,
          backoffs := 2 ^ attempt :: (retryLoop res r (attempt + 1)).backoffs,
          delivered := (retryLoop res r (attempt + 1)).delivered }

/-- `WebhookService.sendWithRetry`, starting at attempt 0 with
`retryCount` attempts allowed; `res i` is what the i-th POST would
return. -/
def sendWithRetry (res : Nat → SendResult) (retryCount : Nat) : RetryTrace :=
  retryLoop res retryCount 0

/-- The retry-count configuration of `InitWebhookService` (lines 44-59):
`strconv.Atoi` yields 0 for an absent or unparsable `WEBHOOK_RETRY`
(modelled as `none`), and a zero is replaced by the default 3. -/
def initRetryCount (envRetry : Option Int) : Int :=
  if envRetry.getD 0 = 0 then 3 else envRetry.getD 0

/-! Concrete sample states, used by the witnesses below. -/

/-- A session that completed the whole lifecycle: connected, with phone
identity and connection timestamp set. -/
def dcConnSample : DeviceClient :=
  { deviceId := "deviceA", qrChan := [], connected := true,
    phone := "628123456789", connectedAt := some 5,
    storeId := some "628123456789", isLoggedIn := true }

/-- A one-entry registry holding `dcConnSample`. -/
def regSample : WhatsAppService :=
  ⟨[("deviceA", dcConnSample)]⟩

/-- A freshly created session whose collaborator has since completed
login (stored identity and logged-in flag set by the library) but whose
connection-established callback has not fired yet. -/
def dcLoggedInSample : DeviceClient :=
  collaboratorUpdate (newDeviceClient "deviceA" none) (some "628123456789") true

/-- Same situation as `dcLoggedInSample` for a second device. -/
def dcLoggedInSampleB : DeviceClient :=
  collaboratorUpdate (newDeviceClient "deviceB" none) (some "6281111") true

/-- An enabled webhook configuration. -/
def webhookSample : WebhookService :=
  { enabled := true, webhookURL := "https://example.com/hook", retryCount := 3 }

/-- A plain-text inbound message from another user. -/
def msgEventSample : MessageEvent :=
  { info := { id := "MSG1",
              sender := { user := "628123456789", server := "s.whatsapp.net" },
              chat := { user := "628999", server := "s.whatsapp.net" },
              isFromMe := false, isGroup := false, pushName := "Alice",
              timestamp := 1700000000 },
    message := { conversation := "hello", extendedText := none,
                 imageCaption := none, videoCaption := none,
                 hasAudio := false, documentCaption := none } }

/-! Helper lemmas about the registry table. -/

theorem lookupClient_update_self (d : String) (dc2 : DeviceClient) :
    ∀ (cs : List (String × DeviceClient)) (dc : DeviceClient),
      lookupClient cs d = some dc →
      lookupClient (updateClient cs d dc2) d = some dc2 := by
  intro cs
  induction cs with
  | nil => intro dc h; simp [lookupClient] at h
  | cons p rest ih =>
      obtain ⟨k, v⟩ := p
      intro dc h
      by_cases hk : k = d
      · subst hk; simp [updateClient, lookupClient]
      · simp only [lookupClient, if_neg hk] at h
        simpa [updateClient, lookupClient, hk] using ih dc h

theorem lookupClient_erase_self (d : String) :
    ∀ cs : List (String × DeviceClient),
      lookupClient (eraseClient cs d) d = none := by
  intro cs
  induction cs with
  | nil => rfl
  | cons p rest ih =>
      obtain ⟨k, v⟩ := p
      by_cases hk : k = d
      · subst hk; simpa [eraseClient] using ih
      · simpa [eraseClient, lookupClient, hk] using ih

/-! Helper lemmas about the retry loop. -/

theorem retryLoop_succ_ok (res : Nat → SendResult) (r a : Nat)
    (h : sendOk (res a) = true) :
    retryLoop res (r + 1) a =
      { attempts := 1, backoffs := [], delivered := true } := by
  simp [retryLoop, h]

theorem retryLoop_one_fail (res : Nat → SendResult) (a : Nat)
    (h : sendOk (res a) = false) :
    retryLoop res 1 a =
      { attempts := 1, backoffs := [], delivered := false } := by
  simp [retryLoop, h]

theorem retryLoop_succ_fail (res : Nat → SendResult) (r a : Nat)
    (h : sendOk (res a) = false) (hr : r ≠ 0) :
    retryLoop res (r + 1) a =
      { attempts := (retryLoop res r (a + 1)).attempts + 1,
        backoffs := 2 ^ a :: (retryLoop res r (a + 1)).backoffs,
        delivered := (retryLoop res r (a + 1)).delivered } := by
  simp [retryLoop, h, hr]

theorem retryLoop_allFail (res : Nat → SendResult)
    (hf : ∀ i, sendOk (res i) = false) :
    ∀ r a, (retryLoop res r a).attempts = r ∧
      (retryLoop res r a).delivered = false := by
  intro r
  induction r with
  | zero => intro a; simp [retryLoop]
  | succ n ih =>
      intro a
      by_cases hn : n = 0
      · subst hn; simp [retryLoop_one_fail res a (hf a)]
      · rw [retryLoop_succ_fail res n a (hf a) hn]
        simp [(ih (a + 1)).1, (ih (a + 1)).2]

theorem retryLoop_attempts_pos (res : Nat → SendResult) (r a : Nat) :
    1 ≤ (retryLoop res (r + 1) a).attempts := by
  cases h1 : sendOk (res a) with
  | true => rw [retryLoop_succ_ok res r a h1]
  | false =>
      by_cases h2 : r = 0
      · subst h2; rw [retryLoop_one_fail res a h1]
      · rw [retryLoop_succ_fail res r a h1 h2]
        simp

theorem retryLoop_backoffs (res : Nat → SendResult) :
    ∀ r a, (retryLoop res r a).backoffs =
      (List.range ((retryLoop res r a).attempts - 1)).map
        (fun i => 2 ^ (a + i)) := by
  intro r
  induction r with
  | zero => intro a; simp [retryLoop]
  | succ n ih =>
      intro a
      cases h1 : sendOk (res a) with
      | true => rw [retryLoop_succ_ok res n a h1]; simp
      | false =>
          by_cases h2 : n = 0
          · subst h2; rw [retryLoop_one_fail res a h1]; simp
          · obtain ⟨m, hm⟩ := Nat.exists_eq_succ_of_ne_zero h2
            have hpos : 1 ≤ (retryLoop res n (a + 1)).attempts := by
              rw [hm]; exact retryLoop_attempts_pos res m (a + 1)
            obtain ⟨t, ht⟩ : ∃ t, (retryLoop res n (a + 1)).attempts = t + 1 :=
              ⟨(retryLoop res n (a + 1)).attempts - 1, by omega⟩
            rw [retryLoop_succ_fail res n a h1 h2]
            simp only [ih (a + 1), ht, Nat.add_sub_cancel]
            rw [List.range_succ_eq_map]
            simp only [List.map_cons, List.map_map, Nat.add_zero,
              List.cons.injEq, true_and]
            apply List.map_congr_left
            intro i _
            simp only [Function.comp_apply]
            congr 1
            omega

/-! Helper lemmas about the message-content selection. -/

set_option maxHeartbeats 1000000 in
theorem applyContent_spec (base : WebhookPayload) (m : MessageContent)
    (hty : base.MessageType = "text") (hmsg : base.Message = "") :
    ((applyContent base m).MessageType, (applyContent base m).Message) =
      specSelectContent m := by
  obtain ⟨conv, ext, img, vid, aud, doc⟩ := m
  by_cases hc : conv = ""
  · subst hc
    cases ext <;> cases img <;> cases vid <;> cases aud <;> cases doc <;>
      simp_all [applyContent, specSelectContent, contentVariants, List.find?]
  · have hb : (conv != "") = true := bne_iff_ne.mpr hc
    simp [applyContent, specSelectContent, contentVariants, List.find?,
      hb, hc, hty]

set_option maxHeartbeats 1000000 in
theorem applyContent_frame (base : WebhookPayload) (m : MessageContent) :
    (applyContent base m).From = base.From ∧
    (applyContent base m).FromName = base.FromName := by
  obtain ⟨conv, ext, img, vid, aud, doc⟩ := m
  by_cases hc : conv = "" <;>
    cases ext <;> cases img <;> cases vid <;> cases aud <;> cases doc <;>
      simp_all [applyContent]

/-! Claim theorems. -/

/-- C1: for every deviceId, calling `create` a second time without an
intervening delete fails with the `AlreadyExists` error, does not
overwrite the stored Session (the registry is returned unchanged), and
leaves the original Session's state untouched (the stored entry is still
the client the first create built). -/
theorem C1_duplicate_create_rejected (s : WhatsAppService) (d : String)
    (env env2 : CreateEnv)
    (habs : lookupClient s.clients d = none)
    (h1 : env.mkdirOk = true) (h2 : env.dbOk = true)
    (h3 : env.deviceStoreOk = true) :
    (createSession s d env).2 = .ok (newDeviceClient d env.storeId) ∧
    createSession (createSession s d env).1 d env2 =
      ((createSession s d env).1, .error (.alreadyExists d)) ∧
    lookupClient (createSession (createSession s d env).1 d env2).1.clients d =
      some (newDeviceClient d env.storeId) := by
  simp [createSession, habs, h1, h2, h3, lookupClient]

/-- C1 witness: the duplicate-create rejection at a concrete device. -/
theorem C1_duplicate_create_rejected_witness :
    (createSession ⟨[]⟩ "deviceA" ⟨true, true, true, none⟩).2 =
      .ok (newDeviceClient "deviceA" none) ∧
    createSession (createSession ⟨[]⟩ "deviceA" ⟨true, true, true, none⟩).1
        "deviceA" ⟨true, true, true, none⟩ =
      ((createSession ⟨[]⟩ "deviceA" ⟨true, true, true, none⟩).1,
        .error (.alreadyExists "deviceA")) ∧
    lookupClient (createSession (createSession ⟨[]⟩ "deviceA"
          ⟨true, true, true, none⟩).1 "deviceA"
          ⟨true, true, true, none⟩).1.clients "deviceA" =
      some (newDeviceClient "deviceA" none) :=
  C1_duplicate_create_rejected ⟨[]⟩ "deviceA" ⟨true, true, true, none⟩
    ⟨true, true, true, none⟩ rfl rfl rfl rfl

/-- C4: pushing six codes in succession into a session's empty pairing
queue (capacity 5) leaves exactly the five most recent codes retrievable
in FIFO order, the oldest code having been evicted to admit the newest. -/
theorem C4_qr_queue_evicts_oldest (now : Nat) (dc : DeviceClient)
    (h : dc.qrChan = []) (c1 c2 c3 c4 c5 c6 : String) :
    (handleEvent now dc (.qr [c1, c2, c3, c4, c5, c6])).qrChan =
      [c2, c3, c4, c5, c6] := by
  obtain ⟨did, q, cn, ph, ca, sid, il⟩ := dc
  have hq : q = [] := h
  subst hq
  rfl

/-- C4 witness: six concrete codes through an empty queue. -/
theorem C4_qr_queue_evicts_oldest_witness :
    (handleEvent 0 (newDeviceClient "deviceA" none)
        (.qr ["a", "b", "c", "d", "e", "f"])).qrChan =
      ["b", "c", "d", "e", "f"] :=
  C4_qr_queue_evicts_oldest 0 (newDeviceClient "deviceA" none) rfl
    "a" "b" "c" "d" "e" "f"

/-- C5: a notification whose every delivery attempt fails is tried
exactly `retryCount` times and then silently dropped (never delivered,
no further attempt), and an unconfigured retry count defaults to 3. -/
theorem C5_retry_exhaustion (res : Nat → SendResult) (n : Nat)
    (hf : ∀ i, sendOk (res i) = false) :
    (sendWithRetry res n).attempts = n ∧
    (sendWithRetry res n).delivered = false ∧
    initRetryCount none = 3 :=
  ⟨(retryLoop_allFail res hf n 0).1, (retryLoop_allFail res hf n 0).2, rfl⟩

/-- C5 witness: an endpoint answering 500 forever, with the default
retry count. -/
theorem C5_retry_exhaustion_witness :
    (sendWithRetry (fun _ => SendResult.status 500) 3).attempts = 3 ∧
    (sendWithRetry (fun _ => SendResult.status 500) 3).delivered = false ∧
    initRetryCount none = 3 :=
  C5_retry_exhaustion (fun _ => SendResult.status 500) 3 (fun _ => rfl)

/-- C6: the backoff sleeps of one delivery sequence are exactly 1s, 2s,
4s, ... (2^(i-1) seconds after the i-th failed attempt) with one fewer
sleep than attempts - so no delay follows the final attempt - and one
attempt succeeds exactly when the POST returns a 2xx status; a transport
error is never a success. -/
theorem C6_backoff_schedule :
    (∀ (res : Nat → SendResult) (n : Nat),
        (sendWithRetry res n).backoffs =
          (List.range ((sendWithRetry res n).attempts - 1)).map
            (fun i => 2 ^ i)) ∧
    (∀ code : Nat,
        sendOk (.status code) = decide (200 ≤ code ∧ code < 300)) ∧
    sendOk .transportError = false := by
  refine ⟨?_, ?_, rfl⟩
  · intro res n
    simpa [sendWithRetry] using retryLoop_backoffs res n 0
  · intro code
    by_cases h : code < 200 ∨ 300 ≤ code
    · simp only [sendOk, if_pos h]
      symm
      rw [decide_eq_false_iff_not]
      omega
    · simp only [sendOk, if_neg h]
      symm
      rw [decide_eq_true_eq]
      omega

/-- C8: on a connected session, a connection-lost event and an explicit
logout both clear only the `Connected` flag: phone identity and
connection timestamp keep their last-known values and no other session
field changes. -/
theorem C8_disconnect_frame (now : Nat) (dc : DeviceClient)
    (s : WhatsAppService) (d : String)
    (hdc : dc.connected = true)
    (hs : lookupClient s.clients d = some dc) :
    handleEvent now dc .disconnected = { dc with connected := false } ∧
    (logoutSession s d).2 = .ok () ∧
    lookupClient (logoutSession s d).1.clients d =
      some { dc with connected := false } := by
  refine ⟨rfl, ?_, ?_⟩
  · simp [logoutSession, hs]
  · simp only [logoutSession, hs]
    exact lookupClient_update_self d _ s.clients dc hs

/-- C8 witness: a concrete connected session, via event and via logout. -/
theorem C8_disconnect_frame_witness :
    handleEvent 9 dcConnSample .disconnected =
      { dcConnSample with connected := false } ∧
    (logoutSession regSample "deviceA").2 = .ok () ∧
    lookupClient (logoutSession regSample "deviceA").1.clients "deviceA" =
      some { dcConnSample with connected := false } :=
  C8_disconnect_frame 9 dcConnSample regSample "deviceA" rfl rfl

/-- C10: delete is not atomic on error - when removal of the on-disk
credential directory fails, `DeleteSession` returns the error even though
the session entry is already gone from the registry, so a subsequent get
reports `NotFound` despite the delete having reported failure. -/
theorem C10_delete_reports_error_after_removal (s : WhatsAppService)
    (d : String) (dc : DeviceClient)
    (hs : lookupClient s.clients d = some dc) :
    (deleteSession s d false).2 = .error .removeDirFailed ∧
    getSession (deleteSession s d false).1 d = .error (.notFound d) := by
  constructor
  · simp [deleteSession, hs]
  · simp [deleteSession, hs, getSession, lookupClient_erase_self]

/-- C10 witness: deleting a concrete registered device while the
directory removal fails. -/
theorem C10_delete_reports_error_after_removal_witness :
    (deleteSession regSample "deviceA" false).2 = .error .removeDirFailed ∧
    getSession (deleteSession regSample "deviceA" false).1 "deviceA" =
      .error (.notFound "deviceA") :=
  C10_delete_reports_error_after_removal regSample "deviceA" dcConnSample rfl

/-- C2 counterexample: the claim that no read-path QR-poll query mutates
the `Connected` flag is false on the code - polling a session whose
client library already reports logged-in with a stored identity flips
`Connected` from false to true (src/handlers/session.go lines 260-279). -/
theorem C2_qr_poll_mutates_connected_cex :
    (getQRCode 50 dcLoggedInSample).1.connected ≠ dcLoggedInSample.connected ∧
    dcLoggedInSample.connected = false ∧
    (getQRCode 50 dcLoggedInSample).1.connected = true := by
  refine ⟨?_, rfl, rfl⟩
  decide

/-- C2 (amended): the `Connected` flag is changed by the Event Router
only through the connection-established and connection-lost callbacks;
the status read performs no write; but the QR-poll handler also sets the
flag - after a poll it equals the old flag or-ed with "the client
reports logged-in with a stored identity". -/
theorem C2_connected_mutators :
    (∀ (now : Nat) (dc : DeviceClient) (e : WAEvent),
        e ≠ WAEvent.connected → e ≠ WAEvent.disconnected →
        (handleEvent now dc e).connected = dc.connected) ∧
    (∀ (now : Nat) (dc : DeviceClient),
        (getQRCode now dc).1.connected =
          (dc.connected || (dc.isLoggedIn && dc.storeId.isSome))) := by
  constructor
  · intro now dc e h1 h2
    cases e <;> simp_all [handleEvent]
  · intro now dc
    by_cases h1 : dc.connected = true
    · simp [getQRCode, h1]
    · have h1b : dc.connected = false := by simpa using h1
      by_cases h2 : (dc.isLoggedIn && dc.storeId.isSome) = true
      · simp [getQRCode, h1b, h2]
      · have h2b : (dc.isLoggedIn && dc.storeId.isSome) = false := by
          simpa using h2
        cases hq : dc.qrChan with
        | nil =>
            cases hsid : dc.storeId with
            | none => simp [getQRCode, h1b, h2b, hq, hsid]
            | some u =>
                have hLI : dc.isLoggedIn = false := by
                  rw [hsid] at h2b
                  simpa using h2b
                simp [getQRCode, h1b, hq, hsid, hLI]
        | cons c rest =>
            by_cases hc : c = ""
            · simp [getQRCode, h1b, h2b, hq, hc]
            · simp [getQRCode, h1b, h2b, hq, hc]

/-- C2 witness: a pair-success callback leaves the flag alone. -/
theorem C2_connected_mutators_witness :
    (handleEvent 7 (newDeviceClient "deviceA" none)
        WAEvent.pairSuccess).connected =
      (newDeviceClient "deviceA" none).connected :=
  C2_connected_mutators.1 7 (newDeviceClient "deviceA" none)
    WAEvent.pairSuccess (by decide) (by decide)

/-- C3 counterexample: a connection-established event arriving while the
client store holds no identity (the code's own `Store.ID != nil` guard)
sets `connectedAt` without setting `phoneIdentity`, so the two are not
always set together. -/
theorem C3_connectedAt_without_phone_cex :
    (handleEvent 100 (newDeviceClient "deviceA" none)
        WAEvent.connected).connectedAt = some 100 ∧
    (handleEvent 100 (newDeviceClient "deviceA" none)
        WAEvent.connected).phone = "" ∧
    (handleEvent 100 (newDeviceClient "deviceA" none)
        WAEvent.connected).connected = true :=
  ⟨rfl, rfl, rfl⟩

/-- C3 (amended): the Event Router writes phone identity and connection
timestamp only on the connection-established event, while the state is
`Connected`; `connectedAt` is always set there, and `phoneIdentity` is
set together with it exactly when the client store holds an identity (it
is left unchanged when the store is empty). -/
theorem C3_identity_set_discipline :
    (∀ (now : Nat) (dc : DeviceClient) (e : WAEvent),
        ((handleEvent now dc e).phone ≠ dc.phone ∨
          (handleEvent now dc e).connectedAt ≠ dc.connectedAt) →
        e = WAEvent.connected) ∧
    (∀ (now : Nat) (dc : DeviceClient),
        (handleEvent now dc WAEvent.connected).connected = true ∧
        (handleEvent now dc WAEvent.connected).connectedAt = some now) ∧
    (∀ (now : Nat) (dc : DeviceClient) (u : String), dc.storeId = some u →
        (handleEvent now dc WAEvent.connected).phone = u) ∧
    (∀ (now : Nat) (dc : DeviceClient), dc.storeId = none →
        (handleEvent now dc WAEvent.connected).phone = dc.phone) := by
  refine ⟨?_, ?_, ?_, ?_⟩
  · intro now dc e h
    cases e <;> simp_all [handleEvent]
  · intro now dc
    exact ⟨rfl, rfl⟩
  · intro now dc u h
    simp [handleEvent, h]
  · intro now dc h
    simp [handleEvent, h]

/-- C3 witness: the established event with a stored identity sets the
phone to that identity. -/
theorem C3_identity_set_discipline_witness :
    (handleEvent 100 (newDeviceClient "deviceA" (some "628123456789"))
        WAEvent.connected).phone = "628123456789" :=
  C3_identity_set_discipline.2.2.1 100
    (newDeviceClient "deviceA" (some "628123456789")) "628123456789" rfl

/-- C7 counterexample: a session that has never received the
connection-established event (its `Connected` flag is still false) is
nevertheless reported connected by the QR-poll handler as soon as the
client library reports logged-in, so "never reported Connected before
the explicit established signal" is false on the code. -/
theorem C7_reported_connected_early_cex :
    dcLoggedInSampleB.connected = false ∧
    (getQRCode 9 dcLoggedInSampleB).2 = QRResult.connectedResp "6281111" ∧
    (getQRCode 9 dcLoggedInSampleB).1.connected = true :=
  ⟨rfl, rfl, rfl⟩

/-- C7 (amended): a pair-success event causes no state change and the
Event Router marks a session `Connected` only on the
connection-established event; the QR-poll handler, however, reports the
session connected (and marks it so) whenever the client library reports
logged-in with a stored identity, which may precede the established
event. -/
theorem C7_connected_only_on_established :
    (∀ (now : Nat) (dc : DeviceClient),
        handleEvent now dc WAEvent.pairSuccess = dc) ∧
    (∀ (now : Nat) (dc : DeviceClient) (e : WAEvent),
        (handleEvent now dc e).connected = true →
        dc.connected = true ∨ e = WAEvent.connected) ∧
    (∀ (now : Nat) (dc : DeviceClient) (u : String),
        dc.connected = false → dc.isLoggedIn = true → dc.storeId = some u →
        (getQRCode now dc).2 = QRResult.connectedResp u ∧
        (getQRCode now dc).1.connected = true) := by
  refine ⟨fun now dc => rfl, ?_, ?_⟩
  · intro now dc e h
    cases e <;> simp_all [handleEvent]
  · intro now dc u h1 h2 h3
    simp [getQRCode, h1, h2, h3]

/-- C7 witness: the logged-in-but-not-established session is reported
connected by the poll. -/
theorem C7_connected_only_on_established_witness :
    (getQRCode 11 dcLoggedInSampleB).2 = QRResult.connectedResp "6281111" ∧
    (getQRCode 11 dcLoggedInSampleB).1.connected = true :=
  C7_connected_only_on_established.2.2 11 dcLoggedInSampleB "6281111"
    rfl rfl rfl

/-- C9: the webhook notification built for an inbound message uses the
reported sender with the fixed display name for a self-sent message and
the reported chat identity with the push name otherwise, and derives body
and kind from the first populated payload variant in the fixed order
plain text, extended text, image caption, video caption, audio, document
caption, defaulting to kind `text` with empty body when none match. -/
theorem C9_payload_normalization (w : WebhookService) (deviceID : String)
    (evt : MessageEvent) (hen : w.enabled = true) (hurl : w.webhookURL ≠ "") :
    ∃ p, handleIncomingMessage w deviceID evt = some p ∧
      (p.MessageType, p.Message) = specSelectContent evt.message ∧
      (evt.info.isFromMe = true →
        p.From = evt.info.sender.user ∧ p.FromName = "Me") ∧
      (evt.info.isFromMe = false →
        p.From = evt.info.chat.user ∧ p.FromName = evt.info.pushName) := by
  have hcond : ¬(w.enabled = false ∨ w.webhookURL = "") := by
    rintro (h | h)
    · rw [hen] at h
      exact Bool.noConfusion h
    · exact hurl h
  have hfrom := applyContent_frame (basePayload deviceID evt) evt.message
  have hsel := applyContent_spec (basePayload deviceID evt) evt.message rfl rfl
  by_cases hg : evt.info.isGroup = true
  · refine ⟨{ applyContent (basePayload deviceID evt) evt.message with
        GroupJID := some (extractPhoneNumber evt.info.chat) }, ?_, hsel, ?_, ?_⟩
    · simp [handleIncomingMessage, hcond, hg]
    · intro hf
      refine ⟨?_, ?_⟩
      · show (applyContent (basePayload deviceID evt) evt.message).From = _
        rw [hfrom.1]
        simp [basePayload, extractPhoneNumber, hf]
      · show (applyContent (basePayload deviceID evt) evt.message).FromName = _
        rw [hfrom.2]
        simp [basePayload, hf]
    · intro hf
      refine ⟨?_, ?_⟩
      · show (applyContent (basePayload deviceID evt) evt.message).From = _
        rw [hfrom.1]
        simp [basePayload, extractPhoneNumber, hf]
      · show (applyContent (basePayload deviceID evt) evt.message).FromName = _
        rw [hfrom.2]
        simp [basePayload, hf]
  · refine ⟨applyContent (basePayload deviceID evt) evt.message, ?_, hsel, ?_, ?_⟩
    · simp [handleIncomingMessage, hcond, hg]
    · intro hf
      refine ⟨?_, ?_⟩
      · rw [hfrom.1]
        simp [basePayload, extractPhoneNumber, hf]
      · rw [hfrom.2]
        simp [basePayload, hf]
    · intro hf
      refine ⟨?_, ?_⟩
      · rw [hfrom.1]
        simp [basePayload, extractPhoneNumber, hf]
      · rw [hfrom.2]
        simp [basePayload, hf]

/-- C9 witness: a concrete plain-text message from another user through
an enabled webhook service. -/
theorem C9_payload_normalization_witness :
    ∃ p, handleIncomingMessage webhookSample "deviceA" msgEventSample = some p ∧
      (p.MessageType, p.Message) = specSelectContent msgEventSample.message ∧
      (msgEventSample.info.isFromMe = true →
        p.From = msgEventSample.info.sender.user ∧ p.FromName = "Me") ∧
      (msgEventSample.info.isFromMe = false →
        p.From = msgEventSample.info.chat.user ∧
        p.FromName = msgEventSample.info.pushName) :=
  C9_payload_normalization webhookSample "deviceA" msgEventSample rfl
    (by decide)

end Waku
